import Mathlib

/-!
Verification development for the sandboxed-python MCP-style server
(`SandBoxedPythonLab.py`): a shallow embedding of its JSON-RPC dispatch
loop, the confined file store, and the restricted script-execution
engine, together with theorems settling the specification's claims.

Conventions of the embedding:
* JSON values are the inductive `Json`; Python `None` is `Json.null`.
* The host filesystem is a record `FS` of the text files present
  (resolved path ↦ content) and the directories created so far; the
  sandbox root and its ancestors exist as directories from startup
  (line 17).  `mkdir(parents=True, exist_ok=True)` and `write_text`
  fail on file/directory collisions exactly as `pathlib` does
  (`FileExistsError` when an ancestor of the target is an existing
  file, `IsADirectoryError` when the target itself is a directory).
  Environmental failures (permissions, disk full) are not modelled.
* Machine floats, the numeric helper tools (`simulate_kerr`,
  `generate_noise`, `plot_data`, `chaos_parameters`, `gpu_info`) and
  the Python interpreter itself are abstracted: script execution is a
  parameter `interp : String → ExecOutcome` giving, for each script,
  the observable outcome of `exec` (captured streams, final local
  bindings, and whether a fault was raised and of which kind).  A
  script-local binding is a `PyVal`: either a JSON-encodable value or
  an object `json.dumps` cannot encode (such as a builtin function),
  so that the dispatcher's serialization failure path is modelled.
-/

/-- JSON values as parsed by `json.loads` / produced by `json.dumps`.
Numbers are restricted to integers (no claim involves JSON floats). -/
inductive Json where
  | null : Json
  | bool (b : Bool) : Json
  | num (n : Int) : Json
  | str (s : String) : Json
  | arr (elts : List Json) : Json
  | obj (fields : List (String × Json)) : Json

/-- Field lookup on a string-keyed association list: Python
`dict.get(k)`, returning `none` when the key is absent.  (CPython
keeps the last duplicate key when parsing; objects built by this
development never duplicate keys, so first-match lookup agrees.) -/
def jget {α : Type} (fields : List (String × α)) (k : String) : Option α :=
  (fields.find? (fun e => e.1 = k)).map (·.2)

/-- Python truthiness of a JSON value: `None`, `False`, `0`, `""`, `[]`
and an empty object are falsy, everything else is truthy. -/
def pyTruthy : Json → Bool
  | Json.null => false
  | Json.bool b => b
  | Json.num n => decide (n ≠ 0)
  | Json.str s => decide (s ≠ "")
  | Json.arr [] => false
  | Json.arr (_ :: _) => true
  | Json.obj [] => false
  | Json.obj (_ :: _) => true

/-- Python `a or b`: `a` when truthy, otherwise `b`. -/
def pyOr (a b : Json) : Json :=
  if pyTruthy a then a else b

/-- Python `str()` of a value, as interpolated into f-string error
messages.  Scalar renderings are exact (`str(None) = "None"`, etc.);
the bracketed rendering of containers is abbreviated, since no message
inspected by a claim interpolates a container. -/
def pyStr : Json → String
  | Json.null => "None"
  | Json.bool true => "True"
  | Json.bool false => "False"
  | Json.num n => toString n
  | Json.str s => s
  | Json.arr _ => "[...]"
  | Json.obj _ => "\x7b...\x7d"

/-!
## Path resolution (`sandbox_path`, line 97)

`sandbox_path(rel)` is `rel.replace("..", "")` followed by
`SANDBOX_ROOT / rel` with `pathlib` semantics.  A `pathlib` POSIX path
is represented by `PPath`: a root kind (`0` = relative, `1` = rooted at
`/`, `2` = rooted at `//` — `pathlib` keeps a double leading slash as a
distinct root, and collapses three or more to `/`) plus the list of
segments (empty and `.` segments are dropped by `pathlib`).
-/

/-- A `pathlib.PurePosixPath`: root kind (`0` relative, `1` the root
`/`, `2` the root `//`) and its non-empty, non-`.` segments. -/
structure PPath where
  rootKind : Nat
  segs : List String
deriving DecidableEq, Repr

/-- Python `str.replace("..", "")` on the character list: leftmost,
non-overlapping removal of every occurrence of the two-character
substring `..`. -/
def dropDotDot : List Char → List Char
  | '.' :: '.' :: rest => dropDotDot rest
  | c :: rest => c :: dropDotDot rest
  | [] => []

/-- The code's `rel.replace("..", "")` (line 98). -/
def stripDotDot (s : String) : String :=
  ⟨dropDotDot s.toList⟩

/-- Split a character list at `/` separators. -/
def splitSlash : List Char → List (List Char)
  | [] => [[]]
  | '/' :: rest => [] :: splitSlash rest
  | c :: rest =>
    match splitSlash rest with
    | s :: ss => (c :: s) :: ss
    | [] => [[c]]

/-- The `pathlib` segments of a path string: split on `/`, drop empty
and `.` segments. -/
def pathSegs (cs : List Char) : List String :=
  ((splitSlash cs).filter (fun seg => seg ≠ [] ∧ seg ≠ ['.'])).map
    (fun seg => (⟨seg⟩ : String))

/-- The `pathlib` root kind of a path string: `//x` has root `//`,
while `/x` and `///x` (three or more slashes) have root `/`. -/
def pathRootKind : List Char → Nat
  | '/' :: '/' :: '/' :: _ => 1
  | '/' :: '/' :: _ => 2
  | '/' :: _ => 1
  | _ => 0

/-- Parse a path string into a `PPath` (`pathlib` constructor). -/
def parsePP (s : String) : PPath :=
  ⟨pathRootKind s.toList, pathSegs s.toList⟩

/-- The `pathlib` `/` operator: joining with an absolute right operand
discards the left operand entirely. -/
def joinPP (a b : PPath) : PPath :=
  if b.rootKind ≠ 0 then b else ⟨a.rootKind, a.segs ++ b.segs⟩

/-- Function `sandbox_path(rel)` (lines 97–99): strip every `..`, then
join the result to the sandbox root with `pathlib`'s `/`. -/
def sandbox_path (root : PPath) (rel : String) : PPath :=
  joinPP root (parsePP (stripDotDot rel))

/-- Boolean segment-list prefix test. -/
def segPrefixOf : List String → List String → Bool
  | [], _ => true
  | _ :: _, [] => false
  | a :: as, b :: bs => decide (a = b) && segPrefixOf as bs

/-- Whether `p` is lexically a descendant of `root` (the root itself
counts): same root kind and `root`'s segments are a prefix of `p`'s.
Read the other way round, `isDescendant q p` says `q` is an
ancestor-or-self of `p`. -/
def isDescendant (root p : PPath) : Bool :=
  decide (root.rootKind = p.rootKind) && segPrefixOf root.segs p.segs

/-- The value `p.relative_to(SANDBOX_ROOT).as_posix()` for a path
strictly below the root (what `glob("**/*")` can reach), `none`
otherwise. -/
def relTo (root p : PPath) : Option String :=
  if isDescendant root p && decide (root.segs.length < p.segs.length) then
    some (String.intercalate "/" (p.segs.drop root.segs.length))
  else
    none

/-- `pathlib`'s `p.parent`: drop the last segment. -/
def parentPP (p : PPath) : PPath :=
  ⟨p.rootKind, p.segs.dropLast⟩

/-- All ancestors-or-self of `p`, shortest first (the chain
`mkdir(parents=True)` walks). -/
def prefixesPP (p : PPath) : List PPath :=
  (List.range (p.segs.length + 1)).map (fun i => ⟨p.rootKind, p.segs.take i⟩)

/-!
## Faults
-/

/-- A raised Python exception as observed at a `try` boundary:
`summary` is `str(e)`, `trace` is the `traceback` rendering, and
`catchable` records whether the exception derives from `Exception`
(the class that `except Exception` clauses catch) — `SystemExit`,
`KeyboardInterrupt` and other bare `BaseException`s do not. -/
structure Fault where
  summary : String
  trace : String
  catchable : Bool
deriving DecidableEq, Repr

/-- The first line that `traceback.print_exc` / `format_exc` writes. -/
def tracebackHeader : String := "Traceback (most recent call last):\n"

/-- An `Exception`-kind fault whose trace is its traceback rendering
(the model abbreviates the frame list of `format_exc` to the header
plus the exception summary; no claim inspects the frame text). -/
def excFault (summary : String) : Fault :=
  ⟨summary, tracebackHeader ++ summary, true⟩

/-!
## The filesystem

A filesystem state is the finite map of text files plus the set of
directories created by earlier `mkdir` calls.  The sandbox root and
its ancestors exist as directories from startup (`SANDBOX_ROOT.mkdir
(parents=True, exist_ok=True)`, line 17), the filesystem roots `/` and
`//` always exist, and the parent directories of any present file
exist.
-/

/-- The text files present: resolved path ↦ file content. -/
abbrev Store := List (PPath × String)

/-- Insert or overwrite the entry at `k` (the success case of
`write_text`). -/
def writeStore (st : Store) (k : PPath) (v : String) : Store :=
  (k, v) :: st.filter (fun e => e.1 ≠ k)

/-- The stored content at `k`, if any. -/
def readStore (st : Store) (k : PPath) : Option String :=
  (st.find? (fun e => e.1 = k)).map (·.2)

/-- Listing per `tool_list_files` (lines 313–319): every stored file
strictly below the root, named relative to the root with `/`
separators (directories are skipped by the `is_file()` guard). -/
def listFiles (root : PPath) (st : Store) : List String :=
  st.filterMap (fun e => relTo root e.1)

/-- Reset per `reset_sandbox_dir` (lines 102–109): unlink every file
found by `glob("**/*")` below the root (success path of the
best-effort loop); files outside the root, and directories, survive. -/
def resetStore (root : PPath) (st : Store) : Store :=
  st.filter (fun e => (relTo root e.1).isNone)

/-- A filesystem state: the files present and the directories created
by earlier `mkdir` calls (beyond the always-present ones). -/
structure FS where
  files : Store
  dirs : List PPath

/-- Whether `p` exists as a file. -/
def isFileFS (fs : FS) (p : PPath) : Bool :=
  (readStore fs.files p).isSome

/-- Whether `p` exists as a directory: it was created by an earlier
`mkdir`, or it is the sandbox root or one of the root's ancestors
(created at startup, line 17), or it is the filesystem root `/` or
`//`, or it is a strict ancestor of a present file. -/
def isDirFS (root : PPath) (fs : FS) (p : PPath) : Bool :=
  fs.dirs.any (fun q => q = p)
  || isDescendant p root
  || (decide (p.rootKind ≠ 0) && decide (p.segs = []))
  || fs.files.any (fun e => isDescendant p e.1 && decide (p ≠ e.1))

/-- Invocation `d.mkdir(parents=True, exist_ok=True)`: walk the
ancestor chain of `d` shortest-first, creating the missing
directories.  It raises `FileExistsError` iff some ancestor-or-self of
`d` exists as a *file*; the directories before that point have then
already been created (partial effect).  Returns the updated filesystem
and whether the call succeeded. -/
def mkdirParents (fs : FS) (d : PPath) : FS × Bool :=
  if (prefixesPP d).any (fun q => isFileFS fs q) then
    ({fs with dirs := fs.dirs ++ (prefixesPP d).takeWhile (fun q => !isFileFS fs q)},
     false)
  else
    ({fs with dirs := fs.dirs ++ prefixesPP d}, true)

/-- The body of `tool_write_file` after the path is resolved (lines
297–298): `p.parent.mkdir(parents=True, exist_ok=True)`, then
`p.write_text(content)`.  `write_text` first rejects non-`str` data
(`TypeError`), then fails with `IsADirectoryError` if `p` is a
directory, and otherwise creates or overwrites the file.  Fault
summaries abbreviate the `errno` prefix and quoted path of the real
messages; no claim inspects them. -/
def writeFS (root : PPath) (fs : FS) (p : PPath) (content : Json) :
    FS × Except Fault Unit :=
  match mkdirParents fs (parentPP p) with
  | (fs', false) => (fs', Except.error (excFault "File exists"))
  | (fs', true) =>
    match content with
    | Json.str c =>
      if isDirFS root fs' p then
        (fs', Except.error (excFault "Is a directory"))
      else
        ({fs' with files := writeStore fs'.files p c}, Except.ok ())
    | _ => (fs', Except.error (excFault "write_text data must be str"))

/-!
## The restricted execution engine
-/

/-- A Python value observable as a script-local binding: either a
value `json.dumps` can encode, or an object it cannot (such as a
builtin function or a module), identified by its type name as it
appears in the `json.dumps` `TypeError` message. -/
inductive PyVal where
  | jval (j : Json)
  | object (typeName : String)

/-- The observable outcome of `exec(code, env_globals, env_locals)`
inside `run_sandboxed_python`: the captured stdout/stderr text the
script produced, the final `env_locals` bindings, and whether `exec`
raised.

* `ok`: the script ran to completion.
* `exc`: the script raised an `Exception`-kind fault (caught by the
  `except Exception` on line 272); `tb` is the traceback text printed
  to the stderr buffer after the header.  The bindings made before the
  fault are retained in `env_locals`.
* `fatal`: the script raised a fault not derived from `Exception`
  (e.g. a script-raised `BaseException`), which `except Exception`
  does not catch: it escapes `run_sandboxed_python` after the
  `finally` restores the streams. -/
inductive ExecOutcome where
  | ok (stdout stderr : String) (locals : List (String × PyVal))
  | exc (stdout stderr : String) (locals : List (String × PyVal)) (tb : String)
  | fatal (stdout stderr : String) (summary trace : String)

/-- The result dictionary of `run_sandboxed_python`: captured streams
plus `env_locals.get("result", None)`, whose value need not be
JSON-encodable. -/
structure RunRes where
  stdout : String
  stderr : String
  result : PyVal

/-- Function `run_sandboxed_python` (lines 236–284) on an execution
outcome: an `Exception`-kind fault is swallowed into the stderr buffer
via `traceback.print_exc(file=stderr_buf)`; `result` is
`env_locals.get("result", None)` in every completing case; a fault not
derived from `Exception` propagates. -/
def run_sandboxed_python : ExecOutcome → Except Fault RunRes
  | ExecOutcome.ok out err locals =>
      Except.ok ⟨out, err, (jget locals "result").getD (PyVal.jval Json.null)⟩
  | ExecOutcome.exc out err locals tb =>
      Except.ok ⟨out, err ++ (tracebackHeader ++ tb),
                 (jget locals "result").getD (PyVal.jval Json.null)⟩
  | ExecOutcome.fatal _ _ summary trace =>
      Except.error ⟨summary, trace, false⟩

/-!
## Tool handlers

Each handler takes the `arguments` JSON value (Python passes the
parsed object; a non-mapping makes `.get` raise an `AttributeError`,
an `Exception`-kind fault) and returns either a result value or a
raised fault.  A handler's result value is serialized by `json.dumps`
only later, inside the dispatcher's `send_message` call — `SendVal`
keeps the distinction: every handler except `run_python` returns a
JSON-encodable dictionary, while `run_python`'s dictionary carries a
`PyVal` that may fail to serialize.
-/

/-- The `AttributeError` raised by `.get` on a non-mapping value
(summary text abbreviated; no claim inspects it). -/
def attrFault : Fault := excFault "object has no attribute get"

/-- A handler's return value, before `json.dumps` sees it. -/
inductive SendVal where
  | jsonVal (j : Json)
  | runVal (r : RunRes)

/-- What `json.dumps` does to a response's `result` payload inside
`send_message` (line 89, called from line 450): a JSON-encodable
dictionary serializes; `run_python`'s dictionary serializes iff its
`result` value is JSON-encodable, and otherwise `dumps` raises
`TypeError` — an `Exception`-kind fault. -/
def serializeResult : SendVal → Except Fault Json
  | SendVal.jsonVal j => Except.ok j
  | SendVal.runVal r =>
    match r.result with
    | PyVal.jval j =>
        Except.ok (Json.obj [("stdout", Json.str r.stdout),
                             ("stderr", Json.str r.stderr),
                             ("result", j)])
    | PyVal.object typeName =>
        Except.error (excFault
          ("Object of type " ++ typeName ++ " is not JSON serializable"))

/-- Handler `tool_write_file` (lines 291–299): validate the path
parameter, resolve it, then `mkdir` the parent chain and write. -/
def tool_write_file (root : PPath) (fs : FS) (args : Json) :
    FS × Except Fault SendVal :=
  match args with
  | Json.obj fields =>
    match jget fields "path" with
    | some (Json.str rel) =>
      match writeFS root fs (sandbox_path root rel)
              ((jget fields "content").getD (Json.str "")) with
      | (fs', Except.ok _) =>
          (fs', Except.ok (SendVal.jsonVal (Json.obj [("ok", Json.bool true)])))
      | (fs', Except.error f) => (fs', Except.error f)
    | _ => (fs, Except.error (excFault "path must be a string"))
  | _ => (fs, Except.error attrFault)

/-- Handler `tool_read_file` (lines 302–310): `FileNotFoundError`
both when nothing exists at the resolved path and when a directory
does (the `p.is_file()` guard), with the same message. -/
def tool_read_file (root : PPath) (fs : FS) (args : Json) :
    FS × Except Fault SendVal :=
  match args with
  | Json.obj fields =>
    match jget fields "path" with
    | some (Json.str rel) =>
      match readStore fs.files (sandbox_path root rel) with
      | some content =>
          (fs, Except.ok (SendVal.jsonVal (Json.obj [("content", Json.str content)])))
      | none => (fs, Except.error (excFault ("File not found: " ++ rel)))
    | _ => (fs, Except.error (excFault "path must be a string"))
  | _ => (fs, Except.error attrFault)

/-- Handler `tool_list_files` (lines 313–319); the params are ignored. -/
def tool_list_files (root : PPath) (fs : FS) (_args : Json) :
    FS × Except Fault SendVal :=
  (fs, Except.ok (SendVal.jsonVal
    (Json.obj [("files", Json.arr ((listFiles root fs.files).map Json.str))])))

/-- Handler `tool_reset_sandbox` (lines 322–324); the params are
ignored; files below the root are unlinked, directories survive. -/
def tool_reset_sandbox (root : PPath) (fs : FS) (_args : Json) :
    FS × Except Fault SendVal :=
  ({fs with files := resetStore root fs.files},
   Except.ok (SendVal.jsonVal (Json.obj [("ok", Json.bool true)])))

/-- Handler `tool_run_python` (lines 331–337): `code` is
`params.get("code") or params.get("python") or ""`; a non-string value
surviving that chain raises `ValueError("code must be a string")`. -/
def tool_run_python (args : Json) (interp : String → ExecOutcome) :
    Except Fault RunRes :=
  match args with
  | Json.obj fields =>
    match pyOr (pyOr ((jget fields "code").getD Json.null)
                     ((jget fields "python").getD Json.null))
               (Json.str "") with
    | Json.str c => run_sandboxed_python (interp c)
    | _ => Except.error (excFault "code must be a string")
  | _ => Except.error attrFault

/-!
## Protocol dispatch

`Env` fixes the ambient parameters of one server process: the sandbox
root, the Python interpreter's behaviour on scripts, and the behaviour
of the five numeric/plotting tools (which are store-independent — none
of `simulate_kerr`, `generate_noise`, `plot_data`, `chaos_parameters`,
`gpu_info` touches the file store, and each returns a JSON-encodable
dictionary).
-/

/-- The registered tool names (the keys of `TOOLS`, lines 396–407). -/
def toolNames : List String :=
  ["run_python", "simulate_kerr", "generate_noise", "plot_data",
   "chaos_parameters", "write_file", "read_file", "list_files",
   "reset_sandbox", "gpu_info"]

/-- Whether `params.get("name")` is registered: it must be a string
key of `TOOLS` (a non-string is never a key of the string-keyed
dict). -/
def isRegistered : Json → Bool
  | Json.str s => toolNames.contains s
  | _ => false

/-- Whether a JSON value is hashable as a Python object: lists and
dicts are not, so `name not in TOOLS` raises
`TypeError("unhashable type")` for them; `None`, booleans, numbers and
strings are hashable. -/
def isHashable : Json → Bool
  | Json.arr _ => false
  | Json.obj _ => false
  | _ => true

/-- Ambient parameters of one server process. -/
structure Env where
  root : PPath
  interp : String → ExecOutcome
  ext : String → Json → Except Fault Json

/-- Invocation `TOOLS[name](arguments)`: run the named registered
tool. -/
def runTool (env : Env) (s : String) (args : Json) (fs : FS) :
    FS × Except Fault SendVal :=
  if s = "run_python" then
    (fs, (tool_run_python args env.interp).map SendVal.runVal)
  else if s = "write_file" then tool_write_file env.root fs args
  else if s = "read_file" then tool_read_file env.root fs args
  else if s = "list_files" then tool_list_files env.root fs args
  else if s = "reset_sandbox" then tool_reset_sandbox env.root fs args
  else (fs, (env.ext s args).map SendVal.jsonVal)

/-- A JSON-RPC error object. -/
structure RpcError where
  code : Int
  message : String
  data : Option String
deriving Repr

/-- The payload of a response: `result` or `error`. -/
inductive ROut where
  | result (r : Json)
  | error (e : RpcError)

/-- A response message (the constant `"jsonrpc": "2.0"` tag is elided;
every `send_message` call site emits it verbatim). -/
structure Response where
  id : Json
  out : ROut

/-- The body of `handle_call_tool` (lines 435–464) after
`name = params.get("name")` and
`arguments = params.get("arguments", {})` have been read.

The returned `Except` models exception propagation out of the
handler; `Except.error` is a fault that escapes `handle_call_tool` —
either one raised before the `try` (line 438's `name not in TOOLS`
raises `TypeError` for an unhashable name), or one inside the `try`
that `except Exception` does not catch — and, `main_loop` having no
handler, terminates the process.

Inside the `try`, the handler runs and its result dictionary is
serialized by `send_message`'s `json.dumps`; a serialization
`TypeError` is an `Exception`-kind fault raised inside the `try`, so
it too is converted to a `-32000` error response. -/
def handleNamedTool (env : Env) (fs : FS) (rid : Json)
    (name args : Json) : FS × Except Fault Response :=
  match name with
  | Json.str s =>
    if toolNames.contains s then
      match runTool env s args fs with
      | (fs', Except.ok v) =>
        match serializeResult v with
        | Except.ok j => (fs', Except.ok ⟨rid, ROut.result j⟩)
        | Except.error f =>
            (fs', Except.ok ⟨rid, ROut.error
              ⟨-32000, "Tool error: " ++ f.summary, some f.trace⟩⟩)
      | (fs', Except.error f) =>
        if f.catchable then
          (fs', Except.ok ⟨rid, ROut.error
            ⟨-32000, "Tool error: " ++ f.summary, some f.trace⟩⟩)
        else
          (fs', Except.error f)
    else
      (fs, Except.ok ⟨rid, ROut.error
        ⟨-32601, "Unknown tool: " ++ s, none⟩⟩)
  | Json.null =>
      (fs, Except.ok ⟨rid, ROut.error
        ⟨-32601, "Unknown tool: " ++ pyStr Json.null, none⟩⟩)
  | Json.bool b =>
      (fs, Except.ok ⟨rid, ROut.error
        ⟨-32601, "Unknown tool: " ++ pyStr (Json.bool b), none⟩⟩)
  | Json.num n =>
      (fs, Except.ok ⟨rid, ROut.error
        ⟨-32601, "Unknown tool: " ++ pyStr (Json.num n), none⟩⟩)
  | Json.arr _ =>
      -- `name not in TOOLS` raises TypeError("unhashable type") for a
      -- list, before the try: the fault escapes with no response.
      (fs, Except.error (excFault "unhashable type: list"))
  | Json.obj _ =>
      (fs, Except.error (excFault "unhashable type: dict"))

/-- Dispatcher `handle_call_tool` (lines 435–464): read
`name = params.get("name")` and
`arguments = params.get("arguments", {})`, then route on the name. -/
def handle_call_tool (env : Env) (fs : FS) (rid : Json)
    (params : List (String × Json)) : FS × Except Fault Response :=
  handleNamedTool env fs rid ((jget params "name").getD Json.null)
    ((jget params "arguments").getD (Json.obj []))

/-- The `initialize` result object (lines 467–481). -/
def initializeResult : Json :=
  Json.obj [("protocolVersion", Json.str "2024-11-05"),
            ("serverInfo", Json.obj [("name", Json.str "python-lab"),
                                     ("version", Json.str "1.0.0")]),
            ("capabilities", Json.obj [("tools", Json.obj [])])]

/-- The `tools/list` result object (lines 414–432). -/
def listToolsResult : Json :=
  Json.obj [("tools", Json.arr (toolNames.map (fun n =>
    Json.obj [("name", Json.str n),
              ("description", Json.str ("Tool: " ++ n)),
              ("inputSchema",
                Json.obj [("type", Json.str "object"),
                          ("properties", Json.obj []),
                          ("additionalProperties", Json.bool true)])])))]

/-- The default `params = msg.get("params", \x7b\x7d) or \x7b\x7d`
(line 493): a missing or falsy value defaults to the empty object; a
truthy value — of any type — is kept as is. -/
def paramsOf (msg : List (String × Json)) : Json :=
  match jget msg "params" with
  | none => Json.obj []
  | some v => pyOr v (Json.obj [])

/-- The method routing of `main_loop` (lines 495–509) once `id`,
`method` and `params` have been read from the message.  `initialize`
and `tools/list` ignore `params`; on the `tools/call` branch a truthy
non-object `params` value makes `params.get("name")` raise
`AttributeError` outside any `try`, crashing the process. -/
def routeMethod (env : Env) (fs : FS) (rid : Json)
    (params : Json) (method : Json) : FS × Except Fault Response :=
  match method with
  | Json.str m =>
    if m = "initialize" then
      (fs, Except.ok ⟨rid, ROut.result initializeResult⟩)
    else if m = "list_tools" ∨ m = "tools/list" then
      (fs, Except.ok ⟨rid, ROut.result listToolsResult⟩)
    else if m = "call_tool" ∨ m = "tools/call" then
      match params with
      | Json.obj fields => handle_call_tool env fs rid fields
      | _ => (fs, Except.error attrFault)
    else
      (fs, Except.ok ⟨rid, ROut.error ⟨-32601, "Unknown method: " ++ m, none⟩⟩)
  | other =>
      (fs, Except.ok ⟨rid, ROut.error
        ⟨-32601, "Unknown method: " ++ pyStr other, none⟩⟩)

/-- One iteration of `main_loop`'s routing (lines 491–509) on a parsed
message dictionary. -/
def dispatch (env : Env) (fs : FS) (msg : List (String × Json)) :
    FS × Except Fault Response :=
  routeMethod env fs ((jget msg "id").getD Json.null) (paramsOf msg)
    ((jget msg "method").getD Json.null)

/-!
## The service loop
-/

/-- One line of standard input as `read_message` sees it:
either it parses (`json.loads` succeeds, giving a message dictionary),
or it does not — a blank line or a `JSONDecodeError` (lines 79–85).
End-of-stream is the end of the input list.  (A line parsing to a
non-dictionary JSON value would crash `main_loop` at `msg.get`; no
claim exercises that corner and it is not modelled.) -/
inductive InLine where
  | parsed (msg : List (String × Json))
  | unparseable

/-- Function `read_message` (lines 75–85) on one available line:
`none` for a blank or unparseable line — indistinguishable from its
`none` at end-of-stream. -/
def read_message : InLine → Option (List (String × Json))
  | InLine.parsed msg => some msg
  | InLine.unparseable => none

/-- What a run of `main_loop` leaves behind: the responses written, the
final filesystem state, and, if a fault escaped the dispatcher, the
fault that terminated the process. -/
structure LoopOut where
  responses : List Response
  final : FS
  crash : Option Fault

/-- Function `main_loop` (lines 485–509): read lines until
`read_message` returns `none` (end-of-stream — or a blank or
unparseable line, which is indistinguishable), dispatching each parsed
message. -/
def main_loop (env : Env) (fs : FS) : List InLine → LoopOut
  | [] => ⟨[], fs, none⟩
  | line :: rest =>
    match read_message line with
    | none => ⟨[], fs, none⟩
    | some msg =>
      match dispatch env fs msg with
      | (fs', Except.error f) => ⟨[], fs', some f⟩
      | (fs', Except.ok resp) =>
        let out := main_loop env fs' rest
        ⟨resp :: out.responses, out.final, out.crash⟩

/-!
## Concrete fixtures used by witnesses and counterexamples

`SANDBOX_ROOT` is `Path(__file__).parent / "sandbox"`, an ordinary
absolute directory; `demoRoot` stands in for one concrete such root.
`demoEnv` is a process whose interpreter is only ever asked to run the
empty script (a no-op: no output, no bindings, no fault).  `emptyFS`
is the filesystem right after startup: no files, no directories beyond
the always-present ones.
-/

/-- A concrete sandbox root (`/home/lab/sandbox`). -/
def demoRoot : PPath := ⟨1, ["home", "lab", "sandbox"]⟩

/-- A concrete process environment over `demoRoot`. -/
def demoEnv : Env :=
  ⟨demoRoot, fun _ => ExecOutcome.ok "" "" [], fun _ _ => Except.ok (Json.obj [])⟩

/-- The filesystem at startup: no files, no created directories. -/
def emptyFS : FS := ⟨[], []⟩

/-- The `write_file` argument object for a path and a content. -/
def wargs (rel c : String) : Json :=
  Json.obj [("path", Json.str rel), ("content", Json.str c)]

/-- The `read_file` argument object for a path. -/
def rargs (rel : String) : Json :=
  Json.obj [("path", Json.str rel)]

/-- A process whose interpreter's script raises a fault *not* derived
from `Exception`.  A script can do this deterministically through the
allow-listed `json` module, e.g.
`raise json.JSONDecodeError.__mro__[-2]("boom")` — the second-to-last
class of that `__mro__` is `BaseException` itself — and the
environment can do it at any time via `KeyboardInterrupt`.  Neither
`except Exception` clause (line 272 in the engine, line 455 in the
dispatcher) catches such a fault. -/
def fatalEnv : Env :=
  ⟨demoRoot, fun _ => ExecOutcome.fatal "" "" "boom" "boom-trace",
   fun _ _ => Except.ok (Json.obj [])⟩

/-- A sequence of `write_file` calls. -/
def writeAll (root : PPath) (fs : FS) : List (String × String) → FS
  | [] => fs
  | (rel, c) :: rest => writeAll root (tool_write_file root fs (wargs rel c)).1 rest

/-- Pairwise prefix-incomparability of resolved paths: no one of them
is an ancestor-or-self of another. -/
def pairwiseIncompatible : List PPath → Bool
  | [] => true
  | a :: rest =>
      rest.all (fun b => !isDescendant a b && !isDescendant b a) &&
      pairwiseIncompatible rest

/-!
## Helper lemmas
-/

/-- A segment list is a prefix of itself. -/
theorem segPrefixOf_refl (l : List String) : segPrefixOf l l = true := by
  induction l with
  | nil => rfl
  | cons a l ih => simp [segPrefixOf, ih]

/-- Every path is a descendant of itself. -/
theorem isDescendant_self (p : PPath) : isDescendant p p = true := by
  simp [isDescendant, segPrefixOf_refl]

/-- A prefix is no longer than the whole. -/
theorem segPrefixOf_length {a b : List String} (h : segPrefixOf a b = true) :
    a.length ≤ b.length := by
  induction a generalizing b with
  | nil => simp
  | cons x xs ih =>
    cases b with
    | nil => simp [segPrefixOf] at h
    | cons y ys =>
      simp only [segPrefixOf, Bool.and_eq_true, decide_eq_true_eq] at h
      simpa [List.length_cons] using Nat.succ_le_succ (ih h.2)

/-- A `take` of a list is a prefix of it. -/
theorem segPrefixOf_take (i : Nat) (l : List String) :
    segPrefixOf (l.take i) l = true := by
  induction l generalizing i with
  | nil => cases i <;> rfl
  | cons a l ih =>
    cases i with
    | zero => rfl
    | succ j => simp [List.take, segPrefixOf, ih]

/-- Unpack a positive `relTo`: the path lies strictly below the root. -/
theorem relTo_isSome_elim {root p : PPath}
    (h : (relTo root p).isSome = true) :
    isDescendant root p = true ∧ root.segs.length < p.segs.length := by
  unfold relTo at h
  split at h
  · next hc =>
      simpa [Bool.and_eq_true, decide_eq_true_eq] using hc
  · simp at h

/-- A path strictly below the root is not an ancestor-or-self of it. -/
theorem under_root_not_ancestor {root p : PPath}
    (h : (relTo root p).isSome = true) : isDescendant p root = false := by
  obtain ⟨_, hlen⟩ := relTo_isSome_elim h
  cases ht : isDescendant p root with
  | false => rfl
  | true =>
    have h2 : segPrefixOf p.segs root.segs = true := by
      have h3 := ht
      simp only [isDescendant, Bool.and_eq_true, decide_eq_true_eq] at h3
      exact h3.2
    have := segPrefixOf_length h2
    omega

/-- A path strictly below the root has at least one segment. -/
theorem under_root_segs_ne_nil {root p : PPath}
    (h : (relTo root p).isSome = true) : p.segs ≠ [] := by
  obtain ⟨_, hlen⟩ := relTo_isSome_elim h
  intro hnil
  rw [hnil] at hlen
  simp at hlen

/-- Every member of the parent's ancestor chain is a strictly shorter
ancestor of the path itself (when the path has a last segment). -/
theorem mem_parent_prefixes {k q : PPath} (hk : k.segs ≠ [])
    (hq : q ∈ prefixesPP (parentPP k)) :
    isDescendant q k = true ∧ q.segs.length < k.segs.length := by
  simp only [prefixesPP, parentPP, List.mem_map, List.mem_range] at hq
  obtain ⟨i, _hi, hqeq⟩ := hq
  have hd : k.segs.dropLast = k.segs.take (k.segs.length - 1) :=
    List.dropLast_eq_take k.segs
  have hlenpos : 0 < k.segs.length := List.length_pos.mpr hk
  have hsegs : q.segs = k.segs.take (min i (k.segs.length - 1)) := by
    rw [← hqeq]
    simp [hd, List.take_take]
  have hrk : q.rootKind = k.rootKind := by rw [← hqeq]
  constructor
  · simp only [isDescendant, Bool.and_eq_true, decide_eq_true_eq]
    exact ⟨hrk, by rw [hsegs]; exact segPrefixOf_take _ _⟩
  · rw [hsegs, List.length_take]
    omega

/-- A present file's path is among the store's keys. -/
theorem isFileFS_mem {fs : FS} {q : PPath} (h : isFileFS fs q = true) :
    q ∈ fs.files.map Prod.fst := by
  unfold isFileFS readStore at h
  cases hfind : fs.files.find? (fun e => e.1 = q) with
  | none => rw [hfind] at h; simp at h
  | some e =>
    have hpe := List.find?_some hfind
    have hmem := List.mem_of_find?_eq_some hfind
    simp only [decide_eq_true_eq] at hpe
    exact hpe ▸ List.mem_map_of_mem Prod.fst hmem

/-- Filtering out a key that is not present changes nothing. -/
theorem filter_ne_key_of_fresh (st : Store) (k : PPath)
    (hk : k ∉ st.map Prod.fst) :
    st.filter (fun e => e.1 ≠ k) = st := by
  apply List.filter_eq_self.mpr
  rintro ⟨a, b⟩ he
  simp only [decide_eq_true_eq]
  intro hek
  subst hek
  exact hk (List.mem_map_of_mem Prod.fst he)

/-- `mkdir` does not touch the files. -/
theorem mkdirParents_files (fs : FS) (d : PPath) :
    (mkdirParents fs d).1.files = fs.files := by
  unfold mkdirParents
  split <;> rfl

/-- A successful low-level write leaves exactly the inserted file. -/
theorem writeFS_ok_files {root : PPath} {fs : FS} {p : PPath} {c : String}
    {fs2 : FS} {u : Unit}
    (h : writeFS root fs p (Json.str c) = (fs2, Except.ok u)) :
    fs2.files = writeStore fs.files p c := by
  unfold writeFS at h
  rcases hmk : mkdirParents fs (parentPP p) with ⟨fs', b⟩
  rw [hmk] at h
  have hf : fs.files = fs'.files := by
    have h3 := congrArg (fun x => x.1.files) hmk
    simpa [mkdirParents_files] using h3
  cases b
  · simp at h
  · dsimp only at h
    by_cases hdir : isDirFS root fs' p = true
    · rw [if_pos hdir] at h
      simp at h
    · rw [if_neg hdir] at h
      have h1 := congrArg (fun x => x.1.files) h
      dsimp only at h1
      rw [← h1, ← hf]

/-- A `write_file` call on string arguments, reduced to the filesystem
write at the resolved path. -/
theorem tool_write_file_str (root : PPath) (fs : FS) (rel c : String) :
    tool_write_file root fs (wargs rel c) =
      match writeFS root fs (sandbox_path root rel) (Json.str c) with
      | (fs', Except.ok _) =>
          (fs', Except.ok (SendVal.jsonVal (Json.obj [("ok", Json.bool true)])))
      | (fs', Except.error f) => (fs', Except.error f) := by
  simp [tool_write_file, wargs, jget, List.find?]

/-- Reading back through any alias of the path just *successfully*
written returns the written content. -/
theorem write_ok_read (root : PPath) (fs : FS) (rel rel2 content : String)
    (fs2 : FS) (v : SendVal)
    (halias : sandbox_path root rel2 = sandbox_path root rel)
    (h : tool_write_file root fs (wargs rel content) = (fs2, Except.ok v)) :
    tool_read_file root fs2 (rargs rel2) =
      (fs2, Except.ok (SendVal.jsonVal
        (Json.obj [("content", Json.str content)]))) := by
  rw [tool_write_file_str] at h
  rcases hw : writeFS root fs (sandbox_path root rel) (Json.str content) with ⟨fs', r⟩
  rw [hw] at h
  cases r with
  | error f => dsimp only at h; simp at h
  | ok u =>
    dsimp only at h
    have hfs2 : fs' = fs2 := congrArg Prod.fst h
    subst hfs2
    have hfiles := writeFS_ok_files hw
    simp [tool_read_file, rargs, jget, List.find?, halias, hfiles,
          readStore, writeStore]

/-!
## Claims
-/

/-- C1 (the code violates this claim): stripping every `..` from the
relative path `"../../etc/passwd"` leaves `"//etc/passwd"`, which is an
*absolute* path, so `SANDBOX_ROOT / rel` discards the root entirely:
the resolved path is `//etc/passwd`, rooted at `//` — not a descendant
of the sandbox root.  The claim asserts that every relative path
containing parent-directory markers, and this input in particular,
resolves to a descendant of the root. -/
theorem c1_passwd_escapes_root :
    sandbox_path demoRoot "../../etc/passwd" = ⟨2, ["etc", "passwd"]⟩ ∧
    isDescendant demoRoot (sandbox_path demoRoot "../../etc/passwd") = false ∧
    demoRoot.rootKind = 1 ∧ demoRoot.segs = ["home", "lab", "sandbox"] :=
  ⟨rfl, rfl, rfl, rfl⟩

/-- C6 as the code violates it: `write(path, content)` does not always
succeed.  The path `"."` resolves to the sandbox root itself, a
directory, so `write_text` raises `IsADirectoryError` (converted to a
`-32000` fault, not a success acknowledgment) and the read then fails
with `FileNotFoundError`; and writing `"a/b"` when the file `"a"`
exists makes `p.parent.mkdir` raise `FileExistsError`.  The claimed
universal round-trip therefore fails at these inputs. -/
theorem c6_counterexample :
    (tool_write_file demoRoot emptyFS (wargs "." "hello")).2 =
      Except.error (excFault "Is a directory") ∧
    sandbox_path demoRoot "." = demoRoot ∧
    (tool_read_file demoRoot
      (tool_write_file demoRoot emptyFS (wargs "." "hello")).1 (rargs ".")).2 =
      Except.error (excFault "File not found: .") ∧
    (tool_write_file demoRoot
      (tool_write_file demoRoot emptyFS (wargs "a" "x")).1 (wargs "a/b" "y")).2 =
      Except.error (excFault "File exists") :=
  ⟨rfl, rfl, rfl, rfl⟩

/-- C6 as amended: whenever `write(path, content)` itself succeeds (it
fails with `FileExistsError` when an ancestor of the resolved path is
an existing file, and with `IsADirectoryError` when the resolved path
is a directory, e.g. `"."`), a following `read(path)` returns exactly
that content.  The filesystem state is universally quantified, so the
target may already exist as a file (overwrite), and intermediate
directories are created by the `mkdir` chain. -/
theorem c6_roundtrip (root : PPath) (fs : FS) (rel content : String)
    (fs2 : FS) (v : SendVal)
    (h : tool_write_file root fs (wargs rel content) = (fs2, Except.ok v)) :
    tool_read_file root fs2 (rargs rel) =
      (fs2, Except.ok (SendVal.jsonVal
        (Json.obj [("content", Json.str content)]))) :=
  write_ok_read root fs rel rel content fs2 v rfl h

/-- Witness for C6 (amended): writing `"a/b.txt"` on the startup
filesystem succeeds, and reading it back returns `"hello"`. -/
theorem c6_roundtrip_witness :
    tool_read_file demoRoot
      (tool_write_file demoRoot emptyFS (wargs "a/b.txt" "hello")).1
      (rargs "a/b.txt") =
    ((tool_write_file demoRoot emptyFS (wargs "a/b.txt" "hello")).1,
     Except.ok (SendVal.jsonVal (Json.obj [("content", Json.str "hello")]))) :=
  c6_roundtrip demoRoot emptyFS "a/b.txt" "hello"
    (tool_write_file demoRoot emptyFS (wargs "a/b.txt" "hello")).1
    (SendVal.jsonVal (Json.obj [("ok", Json.bool true)])) rfl

/-- C9 as the code violates it: the caller paths `".."` and `""` agree
after deleting every `".."` occurrence and both resolve to the sandbox
root itself — but no write/read round-trip exists there: the write
raises `IsADirectoryError` and the read raises `FileNotFoundError`,
while the claim asserts the two paths denote one stored entry that
write and read can access. -/
theorem c9_counterexample :
    stripDotDot ".." = stripDotDot "" ∧
    (".." : String) ≠ "" ∧
    sandbox_path demoRoot ".." = demoRoot ∧
    sandbox_path demoRoot "" = demoRoot ∧
    (tool_write_file demoRoot emptyFS (wargs ".." "hello")).2 =
      Except.error (excFault "Is a directory") ∧
    (tool_read_file demoRoot emptyFS (rargs "")).2 =
      Except.error (excFault "File not found: ") :=
  ⟨rfl, by decide, rfl, rfl, rfl, rfl⟩

/-- C9 as amended: any two caller paths that agree after deleting
every occurrence of `".."` resolve to the same path — so distinct
caller paths can denote one stored entry — and whenever a write
through one of them succeeds, a read through the other returns the
written content. -/
theorem c9_alias_same_file (root : PPath) (fs : FS) (p1 p2 content : String)
    (fs2 : FS) (v : SendVal)
    (h : stripDotDot p1 = stripDotDot p2)
    (hw : tool_write_file root fs (wargs p1 content) = (fs2, Except.ok v)) :
    sandbox_path root p1 = sandbox_path root p2 ∧
    tool_read_file root fs2 (rargs p2) =
      (fs2, Except.ok (SendVal.jsonVal
        (Json.obj [("content", Json.str content)]))) := by
  have heq : sandbox_path root p2 = sandbox_path root p1 := by
    simp [sandbox_path, h]
  exact ⟨heq.symm, write_ok_read root fs p1 p2 content fs2 v heq hw⟩

/-- Witness for C9 (amended) at the concrete alias pair `"a..b"` /
`"ab"` (two distinct caller paths, one stored entry). -/
theorem c9_alias_same_file_witness :
    ("a..b" : String) ≠ "ab" ∧
    (sandbox_path demoRoot "a..b" = sandbox_path demoRoot "ab" ∧
     tool_read_file demoRoot
       (tool_write_file demoRoot emptyFS (wargs "a..b" "hello")).1
       (rargs "ab") =
     ((tool_write_file demoRoot emptyFS (wargs "a..b" "hello")).1,
      Except.ok (SendVal.jsonVal (Json.obj [("content", Json.str "hello")])))) :=
  ⟨by decide,
   c9_alias_same_file demoRoot emptyFS "a..b" "ab" "hello"
     (tool_write_file demoRoot emptyFS (wargs "a..b" "hello")).1
     (SendVal.jsonVal (Json.obj [("ok", Json.bool true)])) rfl rfl⟩

/-- C5 as the code violates it: a `tools/call` whose `params.name` is
the unregistered value `[]` does *not* get a `-32601` response — the
membership test `name not in TOOLS` raises `TypeError` (unhashable
type) before the `try`, no response is written, and the fault escapes
`main_loop`, terminating the process. -/
theorem c5_counterexample :
    (handle_call_tool demoEnv emptyFS (Json.num 7) [("name", Json.arr [])]).2 =
      Except.error (excFault "unhashable type: list") ∧
    (main_loop demoEnv emptyFS
      [InLine.parsed [("id", Json.num 7), ("method", Json.str "tools/call"),
        ("params", Json.obj [("name", Json.arr [])])]]).responses = [] ∧
    (main_loop demoEnv emptyFS
      [InLine.parsed [("id", Json.num 7), ("method", Json.str "tools/call"),
        ("params", Json.obj [("name", Json.arr [])])]]).crash =
      some (excFault "unhashable type: list") :=
  ⟨rfl, rfl, rfl⟩

/-- C5 as amended: a `tools/call` whose `params.name` is a *hashable*
value (a string, or `None`/boolean/number) that is not a registered
tool yields the error response with code `-32601` whose message names
the missing tool, and the file store is returned unchanged (the
handler is never invoked).  An unhashable name (a list or dict)
instead raises `TypeError` before the registry lookup's `try` and
terminates the process with no response (see the counterexample). -/
theorem c5_unknown_tool (env : Env) (fs : FS) (rid : Json)
    (params : List (String × Json))
    (hh : isHashable ((jget params "name").getD Json.null) = true)
    (hr : isRegistered ((jget params "name").getD Json.null) = false) :
    handle_call_tool env fs rid params =
      (fs, Except.ok ⟨rid, ROut.error
        ⟨-32601,
         "Unknown tool: " ++ pyStr ((jget params "name").getD Json.null),
         none⟩⟩) := by
  unfold handle_call_tool
  cases hn : (jget params "name").getD Json.null with
  | str s =>
      rw [hn] at hr
      simp only [isRegistered] at hr
      have h' : s ∉ toolNames := by simpa using hr
      simp [handleNamedTool, h', pyStr]
  | null => simp [handleNamedTool, pyStr]
  | bool b => simp [handleNamedTool, pyStr]
  | num n => simp [handleNamedTool, pyStr]
  | arr elts => rw [hn] at hh; simp [isHashable] at hh
  | obj fields => rw [hn] at hh; simp [isHashable] at hh

/-- Witness for C5 (amended): calling the unregistered tool
`"frobnicate"` against a non-empty store returns `-32601` naming it
and preserves the store. -/
theorem c5_unknown_tool_witness :
    handle_call_tool demoEnv
      ⟨[(⟨1, ["home", "lab", "sandbox", "f.txt"]⟩, "data")], []⟩
      (Json.num 3) [("name", Json.str "frobnicate")] =
    (⟨[(⟨1, ["home", "lab", "sandbox", "f.txt"]⟩, "data")], []⟩,
     Except.ok ⟨Json.num 3, ROut.error
       ⟨-32601, "Unknown tool: frobnicate", none⟩⟩) :=
  c5_unknown_tool demoEnv
    ⟨[(⟨1, ["home", "lab", "sandbox", "f.txt"]⟩, "data")], []⟩
    (Json.num 3) [("name", Json.str "frobnicate")] (by decide) (by decide)

/-- C10: in `tool_run_python`, `code` is computed by Python `or`
chaining, so a *falsy* non-string `code` argument (`0`, `null`, `[]`,
…) never reaches the type check: it is replaced by the empty script,
and (since `exec("")` binds nothing and writes nothing) the call
returns stdout `""`, stderr `""` and result `null`.  The
`ValueError("code must be a string")` is raised exactly for truthy
non-string values. -/
theorem c10_falsy_code :
    (∀ (j : Json) (interp : String → ExecOutcome),
       pyTruthy j = false →
       interp "" = ExecOutcome.ok "" "" [] →
       tool_run_python (Json.obj [("code", j)]) interp =
         Except.ok ⟨"", "", PyVal.jval Json.null⟩) ∧
    (∀ (j : Json) (interp : String → ExecOutcome),
       pyTruthy j = true →
       (∀ s, j ≠ Json.str s) →
       tool_run_python (Json.obj [("code", j)]) interp =
         Except.error (excFault "code must be a string")) := by
  constructor
  · intro j interp hf hi
    have h1 : pyOr (pyOr j Json.null) (Json.str "") = Json.str "" := by
      unfold pyOr
      rw [hf]
      simp [pyTruthy]
    simp [tool_run_python, jget, List.find?, h1, hi, run_sandboxed_python]
  · intro j interp ht hns
    cases j with
    | str s => exact absurd rfl (hns s)
    | null => simp [pyTruthy] at ht
    | bool b =>
        simp [tool_run_python, jget, List.find?, pyOr, ht]
    | num n =>
        simp [tool_run_python, jget, List.find?, pyOr, ht]
    | arr elts =>
        simp [tool_run_python, jget, List.find?, pyOr, ht]
    | obj fields =>
        simp [tool_run_python, jget, List.find?, pyOr, ht]

/-- Witness for C10: `code = 0` (falsy) runs the empty script
successfully; `code = [1]` (truthy non-string) raises the parameter
fault. -/
theorem c10_falsy_code_witness :
    tool_run_python (Json.obj [("code", Json.num 0)])
        (fun _ => ExecOutcome.ok "" "" []) =
      Except.ok ⟨"", "", PyVal.jval Json.null⟩ ∧
    tool_run_python (Json.obj [("code", Json.arr [Json.num 1])])
        (fun _ => ExecOutcome.ok "" "" []) =
      Except.error (excFault "code must be a string") :=
  ⟨c10_falsy_code.1 (Json.num 0) (fun _ => ExecOutcome.ok "" "" []) rfl rfl,
   c10_falsy_code.2 (Json.arr [Json.num 1]) (fun _ => ExecOutcome.ok "" "" [])
     rfl (fun _s h => Json.noConfusion h)⟩

/-- The `or`-chain defining `code` collapses to the `code` argument
whenever that argument is a string: a non-empty string is truthy and
is taken directly; the empty string is falsy, but the chain's final
fallback is again `""`. -/
theorem run_python_code_arg (c : String) :
    pyOr (pyOr (Json.str c) Json.null) (Json.str "") = Json.str c := by
  by_cases hc : c = ""
  · subst hc; rfl
  · simp [pyOr, pyTruthy, hc]

/-- A string with `tracebackHeader` inside is never empty. -/
theorem stderr_with_traceback_ne_empty (se tb : String) :
    se ++ (tracebackHeader ++ tb) ≠ "" := by
  intro h
  have hd := congrArg String.data h
  simp only [String.data_append] at hd
  rcases List.append_eq_nil.mp hd with ⟨h1, h2⟩
  rcases List.append_eq_nil.mp h2 with ⟨h3, h4⟩
  exact absurd h3 (by decide)

/-- C4 as the code violates it: a script may bind `result` *before*
raising — `run_sandboxed_python` reads `env_locals.get("result",
None)` on the fault path too, so the returned `result` is the bound
value, not null.  Concretely this outcome is what executing the script
`result = 5` followed by `1/0` produces: `exec` raises
`ZeroDivisionError` after binding `result` to `5`; the engine returns
a result object whose `stderr` carries the traceback and whose
`result` is `5`, not null as the claim states. -/
theorem c4_counterexample :
    run_sandboxed_python
      (ExecOutcome.exc "" "" [("result", PyVal.jval (Json.num 5))]
        "ZeroDivisionError: division by zero") =
      Except.ok ⟨"",
        "" ++ (tracebackHeader ++ "ZeroDivisionError: division by zero"),
        PyVal.jval (Json.num 5)⟩ ∧
    PyVal.jval (Json.num 5) ≠ PyVal.jval Json.null ∧
    ("" : String) ++ (tracebackHeader ++ "ZeroDivisionError: division by zero") ≠ "" :=
  ⟨rfl, fun h => by injection h with h2; exact Json.noConfusion h2,
   stderr_with_traceback_ne_empty "" "ZeroDivisionError: division by zero"⟩

/-- C4 as amended: for every script whose execution raises an
`Exception`-kind internal fault, the engine completes without
propagating the fault; the returned result object's `stderr` is
non-empty (carrying the diagnostic trace) and its `result` is whatever
the script had bound to `result` when the fault struck — null exactly
when it never bound it (as in a bare `1/0`).

At the protocol level the outcome splits on the bound value's
JSON-encodability: a `run_python` call whose faulting script left a
JSON-encodable `result` yields a successful `result` response with no
RPC-level error (first conjunct); one that left a non-encodable object
(e.g. `result = abs` before `1/0`) makes `json.dumps` raise inside the
dispatcher's `try`, yielding a `-32000` error response instead (second
conjunct). -/
theorem c4_amended :
    (∀ (env : Env) (fs : FS) (rid : Json) (c so se : String)
       (l : List (String × PyVal)) (tb : String) (j : Json),
       env.interp c = ExecOutcome.exc so se l tb →
       (jget l "result").getD (PyVal.jval Json.null) = PyVal.jval j →
       handle_call_tool env fs rid
         [("name", Json.str "run_python"),
          ("arguments", Json.obj [("code", Json.str c)])] =
         (fs, Except.ok ⟨rid, ROut.result (Json.obj
           [("stdout", Json.str so),
            ("stderr", Json.str (se ++ (tracebackHeader ++ tb))),
            ("result", j)])⟩) ∧
       se ++ (tracebackHeader ++ tb) ≠ "") ∧
    (∀ (env : Env) (fs : FS) (rid : Json) (c so se : String)
       (l : List (String × PyVal)) (tb : String) (d : String),
       env.interp c = ExecOutcome.exc so se l tb →
       (jget l "result").getD (PyVal.jval Json.null) = PyVal.object d →
       handle_call_tool env fs rid
         [("name", Json.str "run_python"),
          ("arguments", Json.obj [("code", Json.str c)])] =
         (fs, Except.ok ⟨rid, ROut.error
           ⟨-32000,
            "Tool error: " ++ ("Object of type " ++ d ++ " is not JSON serializable"),
            some (tracebackHeader ++
              ("Object of type " ++ d ++ " is not JSON serializable"))⟩⟩)) := by
  constructor
  · intro env fs rid c so se l tb j hexec hser
    refine ⟨?_, stderr_with_traceback_ne_empty se tb⟩
    simp only [jget] at hser
    simp [handle_call_tool, handleNamedTool, jget, List.find?, runTool,
          tool_run_python, run_python_code_arg, hexec, run_sandboxed_python,
          toolNames, serializeResult, hser, Except.map]
  · intro env fs rid c so se l tb d hexec hser
    simp only [jget] at hser
    simp [handle_call_tool, handleNamedTool, jget, List.find?, runTool,
          tool_run_python, run_python_code_arg, hexec, run_sandboxed_python,
          toolNames, serializeResult, hser, excFault, Except.map]

/-- Witness for C4 (amended): the bare script `"1/0"` binds nothing,
so `result` is null and the response is a `result` response; the
script `"result = abs"` then `"1/0"` leaves a builtin function bound,
and the response is the `-32000` serialization error. -/
theorem c4_amended_witness :
    (handle_call_tool
      ⟨demoRoot,
       fun _ => ExecOutcome.exc "" "" [] "ZeroDivisionError: division by zero",
       fun _ _ => Except.ok (Json.obj [])⟩
      emptyFS (Json.num 1)
      [("name", Json.str "run_python"),
       ("arguments", Json.obj [("code", Json.str "1/0")])] =
      (emptyFS, Except.ok ⟨Json.num 1, ROut.result (Json.obj
        [("stdout", Json.str ""),
         ("stderr", Json.str
           ("" ++ (tracebackHeader ++ "ZeroDivisionError: division by zero"))),
         ("result", Json.null)])⟩) ∧
     ("" : String) ++ (tracebackHeader ++ "ZeroDivisionError: division by zero") ≠ "") ∧
    handle_call_tool
      ⟨demoRoot,
       fun _ => ExecOutcome.exc "" ""
         [("result", PyVal.object "builtin_function_or_method")]
         "ZeroDivisionError: division by zero",
       fun _ _ => Except.ok (Json.obj [])⟩
      emptyFS (Json.num 2)
      [("name", Json.str "run_python"),
       ("arguments", Json.obj [("code", Json.str "result = abs\x0a1/0")])] =
      (emptyFS, Except.ok ⟨Json.num 2, ROut.error
        ⟨-32000,
         "Tool error: Object of type builtin_function_or_method is not JSON serializable",
         some (tracebackHeader ++
           ("Object of type builtin_function_or_method is not JSON serializable"))⟩⟩) :=
  ⟨c4_amended.1
    ⟨demoRoot,
     fun _ => ExecOutcome.exc "" "" [] "ZeroDivisionError: division by zero",
     fun _ _ => Except.ok (Json.obj [])⟩
    emptyFS (Json.num 1) "1/0" "" "" [] "ZeroDivisionError: division by zero"
    Json.null rfl rfl,
   c4_amended.2
    ⟨demoRoot,
     fun _ => ExecOutcome.exc "" ""
       [("result", PyVal.object "builtin_function_or_method")]
       "ZeroDivisionError: division by zero",
     fun _ _ => Except.ok (Json.obj [])⟩
    emptyFS (Json.num 2) "result = abs\x0a1/0" "" ""
    [("result", PyVal.object "builtin_function_or_method")]
    "ZeroDivisionError: division by zero" "builtin_function_or_method"
    rfl rfl⟩

/-- C2 as the code violates it: a dispatched `tools/call` whose
handler raises a fault not derived from `Exception` is *not* converted
into a `-32000` error response — no response is written at all, the
fault escapes `main_loop`, and the process terminates.  The claim
asserts every fault of any kind is caught and the process never
terminated by a handler fault. -/
theorem c2_counterexample :
    (main_loop fatalEnv emptyFS
      [InLine.parsed [("id", Json.num 7), ("method", Json.str "tools/call"),
        ("params", Json.obj [("name", Json.str "run_python"),
          ("arguments", Json.obj
            [("code", Json.str "raise json.JSONDecodeError.__mro__[-2](\x22boom\x22)")])])]]).responses
      = [] ∧
    (main_loop fatalEnv emptyFS
      [InLine.parsed [("id", Json.num 7), ("method", Json.str "tools/call"),
        ("params", Json.obj [("name", Json.str "run_python"),
          ("arguments", Json.obj
            [("code", Json.str "raise json.JSONDecodeError.__mro__[-2](\x22boom\x22)")])])]]).crash
      = some ⟨"boom", "boom-trace", false⟩ :=
  ⟨rfl, rfl⟩

/-- C2 as amended: a handler fault of the catchable kind (derived from
`Exception`) is caught and converted into an error response with code
`-32000` whose message includes the fault's summary and whose `data`
field carries its diagnostic trace string; the dispatcher returns
normally (the process is not terminated).  A handler fault outside
that kind propagates uncaught (see `c2_counterexample`). -/
theorem c2_amended (env : Env) (fs fs2 : FS) (rid : Json)
    (params : List (String × Json)) (s : String) (f : Fault)
    (hname : (jget params "name").getD Json.null = Json.str s)
    (hreg : s ∈ toolNames)
    (hrun : runTool env s ((jget params "arguments").getD (Json.obj [])) fs =
      (fs2, Except.error f))
    (hc : f.catchable = true) :
    handle_call_tool env fs rid params =
      (fs2, Except.ok ⟨rid, ROut.error
        ⟨-32000, "Tool error: " ++ f.summary, some f.trace⟩⟩) := by
  unfold handle_call_tool
  rw [hname]
  simp [handleNamedTool, hreg, hrun, hc]

/-- Witness for C2 (amended): `write_file` called with no `path`
argument raises `ValueError("path must be a string")`, an
`Exception`-kind fault, converted to the `-32000` response carrying
summary and trace. -/
theorem c2_amended_witness :
    handle_call_tool demoEnv emptyFS Json.null [("name", Json.str "write_file")] =
      (emptyFS, Except.ok ⟨Json.null, ROut.error
        ⟨-32000, "Tool error: path must be a string",
         some (tracebackHeader ++ "path must be a string")⟩⟩) :=
  c2_amended demoEnv emptyFS emptyFS Json.null [("name", Json.str "write_file")]
    "write_file" (excFault "path must be a string") rfl (by decide) rfl rfl

/-- C3 as the code violates it: an input line that fails to parse is
*not* a non-fatal skipped input — `read_message` returns `None` for it
exactly as at end-of-stream, and `main_loop` breaks: a well-formed
request on the very next line is never read or answered (first
conjunct), although the same request alone is answered (second
conjunct).  End-of-stream is therefore not the sole termination
signal. -/
theorem c3_counterexample :
    (main_loop demoEnv emptyFS
      [InLine.unparseable,
       InLine.parsed [("id", Json.num 1), ("method", Json.str "initialize")]]).responses
      = [] ∧
    (main_loop demoEnv emptyFS
      [InLine.parsed [("id", Json.num 1), ("method", Json.str "initialize")]]).responses.length
      = 1 :=
  ⟨rfl, rfl⟩

/-- C3 as amended: a line that fails to parse as the message format is
treated exactly like end-of-stream — `read_message` returns `None`,
and the dispatch loop terminates at once, reading no further line and
leaving the store untouched; the loop's termination signals are
end-of-stream, a blank line, and an unparseable line. -/
theorem c3_amended :
    read_message InLine.unparseable = none ∧
    (∀ (env : Env) (fs : FS) (rest : List InLine),
       main_loop env fs (InLine.unparseable :: rest) = ⟨[], fs, none⟩) ∧
    (∀ (env : Env) (fs : FS), main_loop env fs [] = ⟨[], fs, none⟩) :=
  ⟨rfl, fun _ _ _ => rfl, fun _ _ => rfl⟩

/-- Every response produced by the tool-call handler carries the
request id it was given (branches that raise instead of responding are
vacuous here). -/
theorem handleNamedTool_id (env : Env) (fs : FS) (rid : Json)
    (name args : Json) (fs2 : FS) (resp : Response)
    (h : handleNamedTool env fs rid name args = (fs2, Except.ok resp)) :
    resp.id = rid := by
  unfold handleNamedTool at h
  split at h
  · split at h
    · split at h
      · split at h
        · injection h with h1 h2
          injection h2 with h3
          subst h3
          rfl
        · injection h with h1 h2
          injection h2 with h3
          subst h3
          rfl
      · split at h
        · injection h with h1 h2
          injection h2 with h3
          subst h3
          rfl
        · injection h with h1 h2
          exact absurd h2 (by simp)
    · injection h with h1 h2
      injection h2 with h3
      subst h3
      rfl
  · injection h with h1 h2
    injection h2 with h3
    subst h3
    rfl
  · injection h with h1 h2
    injection h2 with h3
    subst h3
    rfl
  · injection h with h1 h2
    injection h2 with h3
    subst h3
    rfl
  · injection h with h1 h2
    exact absurd h2 (by simp)
  · injection h with h1 h2
    exact absurd h2 (by simp)


/-- Every response produced by the method routing carries the request
id it was given. -/
theorem routeMethod_id (env : Env) (fs : FS) (rid : Json)
    (params : Json) (method : Json) (fs2 : FS) (resp : Response)
    (h : routeMethod env fs rid params method = (fs2, Except.ok resp)) :
    resp.id = rid := by
  unfold routeMethod at h
  split at h
  · split at h
    · injection h with h1 h2
      injection h2 with h3
      subst h3
      rfl
    · split at h
      · injection h with h1 h2
        injection h2 with h3
        subst h3
        rfl
      · split at h
        · split at h
          · exact handleNamedTool_id env fs rid _ _ fs2 resp h
          · injection h with h1 h2
            exact absurd h2 (by simp)
        · injection h with h1 h2
          injection h2 with h3
          subst h3
          rfl
  · injection h with h1 h2
    injection h2 with h3
    subst h3
    rfl

/-- C8: whichever of the four routing outcomes a well-formed request
takes (`initialize`, `tools/list`, `tools/call` with its sub-cases, or
the unknown-method error), the produced response carries an `id` equal
to the request's `id` — `msg.get("id")`, i.e. null when absent or
null. -/
theorem c8_response_id_echo (env : Env) (fs : FS)
    (msg : List (String × Json)) (fs2 : FS) (resp : Response)
    (h : dispatch env fs msg = (fs2, Except.ok resp)) :
    resp.id = (jget msg "id").getD Json.null := by
  unfold dispatch at h
  exact routeMethod_id env fs _ _ _ fs2 resp h

/-- Witness for C8: an `initialize` request without an `id` key (so
`id` is null) is answered with a null-id response. -/
theorem c8_response_id_echo_witness :
    (⟨Json.null, ROut.result initializeResult⟩ : Response).id =
      (jget [("method", Json.str "initialize")] "id").getD Json.null :=
  c8_response_id_echo demoEnv emptyFS [("method", Json.str "initialize")] emptyFS
    ⟨Json.null, ROut.result initializeResult⟩ rfl


/-- After `reset_sandbox`, `list_files` enumerates nothing: reset
removes exactly the file entries that listing would enumerate
(directories survive reset and are invisible to listing).  -/
theorem listFiles_reset (root : PPath) (st : Store) :
    listFiles root (resetStore root st) = [] := by
  simp only [resetStore, listFiles]
  rw [List.filterMap_eq_nil_iff]
  intro e he
  have := (List.mem_filter.mp he).2
  exact Option.isNone_iff_eq_none.mp (by simpa using this)

/-- Unpack pairwise incomparability at a cons. -/
theorem pairwiseIncompatible_cons {a : PPath} {l : List PPath}
    (h : pairwiseIncompatible (a :: l) = true) :
    (∀ b ∈ l, isDescendant a b = false ∧ isDescendant b a = false) ∧
    pairwiseIncompatible l = true := by
  simpa [pairwiseIncompatible, List.all_eq_true, Bool.and_eq_true,
         Bool.not_eq_true'] using h

/-- Writing paths whose resolutions are pairwise prefix-incomparable,
all strictly below the root, and incomparable with every present file
and distinct from every created directory, succeeds throughout and
grows the listing by exactly the number of paths written. -/
theorem writeAll_count (root : PPath) :
    ∀ (ps : List (String × String)) (fs : FS),
      pairwiseIncompatible (ps.map (fun p => sandbox_path root p.1)) = true →
      (∀ p ∈ ps, (relTo root (sandbox_path root p.1)).isSome = true) →
      (∀ p ∈ ps, ∀ q ∈ fs.files.map Prod.fst,
          isDescendant q (sandbox_path root p.1) = false ∧
          isDescendant (sandbox_path root p.1) q = false) →
      (∀ p ∈ ps, ∀ q ∈ fs.dirs, q ≠ sandbox_path root p.1) →
      (listFiles root (writeAll root fs ps).files).length =
        (listFiles root fs.files).length + ps.length
  | [], fs, _, _, _, _ => by simp [writeAll]
  | (rel, c) :: rest, fs, hpw, hin, hfile, hdirs => by
    have hu : (relTo root (sandbox_path root rel)).isSome = true :=
      hin (rel, c) (List.mem_cons_self _ _)
    have hnil : (sandbox_path root rel).segs ≠ [] := under_root_segs_ne_nil hu
    -- the mkdir chain meets no file
    have hmk : (prefixesPP (parentPP (sandbox_path root rel))).any
        (fun q => isFileFS fs q) = false := by
      rw [List.any_eq_false]
      intro q hq hqf
      have hqmem := isFileFS_mem hqf
      have hdesc := (mem_parent_prefixes hnil hq).1
      have := (hfile (rel, c) (List.mem_cons_self _ _) q hqmem).1
      rw [this] at hdesc
      exact Bool.noConfusion hdesc
    have hmk2 : mkdirParents fs (parentPP (sandbox_path root rel)) =
        ({fs with dirs := fs.dirs ++ prefixesPP (parentPP (sandbox_path root rel))},
         true) := by
      unfold mkdirParents
      rw [hmk]
      simp
    -- the target itself is not a directory
    have hdir : isDirFS root
        {fs with dirs := fs.dirs ++ prefixesPP (parentPP (sandbox_path root rel))}
        (sandbox_path root rel) = false := by
      simp only [isDirFS, Bool.or_eq_false_iff]
      refine ⟨⟨⟨?_, ?_⟩, ?_⟩, ?_⟩
      · rw [List.any_eq_false]
        intro q hq hdec
        have hqe : q = sandbox_path root rel := by simpa using hdec
        rcases List.mem_append.mp hq with hold | hnew
        · exact hdirs (rel, c) (List.mem_cons_self _ _) q hold hqe
        · have := (mem_parent_prefixes hnil hnew).2
          rw [hqe] at this
          omega
      · exact under_root_not_ancestor hu
      · cases hrk : decide ((sandbox_path root rel).rootKind ≠ 0) with
        | false => rfl
        | true => simp [hnil]
      · rw [List.any_eq_false]
        rintro ⟨q, v⟩ hqmem hand
        have hd2 := (hfile (rel, c) (List.mem_cons_self _ _) q
          (List.mem_map_of_mem Prod.fst hqmem)).2
        simp [hd2] at hand
    have hwfs : writeFS root fs (sandbox_path root rel) (Json.str c) =
        ({files := writeStore fs.files (sandbox_path root rel) c,
          dirs := fs.dirs ++ prefixesPP (parentPP (sandbox_path root rel))},
         Except.ok ()) := by
      simp [writeFS, hmk2, hdir]
    -- the key is fresh among the files
    have hfresh : sandbox_path root rel ∉ fs.files.map Prod.fst := by
      intro hkmem
      have := (hfile (rel, c) (List.mem_cons_self _ _) _ hkmem).1
      rw [isDescendant_self] at this
      exact Bool.noConfusion this
    have hws : writeStore fs.files (sandbox_path root rel) c =
        (sandbox_path root rel, c) :: fs.files := by
      unfold writeStore
      rw [filter_ne_key_of_fresh fs.files (sandbox_path root rel) hfresh]
    have htw : (tool_write_file root fs (wargs rel c)).1 =
        ⟨(sandbox_path root rel, c) :: fs.files,
         fs.dirs ++ prefixesPP (parentPP (sandbox_path root rel))⟩ := by
      rw [tool_write_file_str, hwfs, hws]
    -- unpack the pairwise hypothesis
    rw [List.map_cons] at hpw
    have hpair := pairwiseIncompatible_cons hpw
    have hhead := hpair.1
    have hpw2 := hpair.2
    -- invariants for the remaining writes
    have hin2 : ∀ p ∈ rest, (relTo root (sandbox_path root p.1)).isSome = true :=
      fun p hp => hin p (List.mem_cons_of_mem _ hp)
    have hfile2 : ∀ p ∈ rest, ∀ q ∈
        ((sandbox_path root rel, c) :: fs.files).map Prod.fst,
        isDescendant q (sandbox_path root p.1) = false ∧
        isDescendant (sandbox_path root p.1) q = false := by
      intro p hp q hq
      rw [List.map_cons] at hq
      rcases List.mem_cons.mp hq with hqk | hqold
      · subst hqk
        have hb := hhead (sandbox_path root p.1)
          (List.mem_map_of_mem (fun p => sandbox_path root p.1) hp)
        exact ⟨hb.1, hb.2⟩
      · exact hfile p (List.mem_cons_of_mem _ hp) q hqold
    have hdirs2 : ∀ p ∈ rest, ∀ q ∈
        fs.dirs ++ prefixesPP (parentPP (sandbox_path root rel)),
        q ≠ sandbox_path root p.1 := by
      intro p hp q hq
      rcases List.mem_append.mp hq with hold | hnew
      · exact hdirs p (List.mem_cons_of_mem _ hp) q hold
      · intro hqe
        have hdq := (mem_parent_prefixes hnil hnew).1
        rw [hqe] at hdq
        have hb := hhead (sandbox_path root p.1)
          (List.mem_map_of_mem (fun p => sandbox_path root p.1) hp)
        rw [hb.2] at hdq
        exact Bool.noConfusion hdq
    have ih := writeAll_count root rest
      ⟨(sandbox_path root rel, c) :: fs.files,
       fs.dirs ++ prefixesPP (parentPP (sandbox_path root rel))⟩
      hpw2 hin2 hfile2 hdirs2
    obtain ⟨r, hr⟩ := Option.isSome_iff_exists.mp hu
    have hlen : (listFiles root ((sandbox_path root rel, c) :: fs.files)).length =
        (listFiles root fs.files).length + 1 := by
      simp [listFiles, List.filterMap_cons, hr]
    calc (listFiles root (writeAll root fs ((rel, c) :: rest)).files).length
        = (listFiles root (writeAll root
            ⟨(sandbox_path root rel, c) :: fs.files,
             fs.dirs ++ prefixesPP (parentPP (sandbox_path root rel))⟩ rest).files).length := by
          rw [writeAll, htw]
      _ = (listFiles root ((sandbox_path root rel, c) :: fs.files)).length
            + rest.length := ih
      _ = (listFiles root fs.files).length + ((rel, c) :: rest).length := by
          rw [hlen]
          simp [List.length_cons]
          omega

/-- C7 as the code violates it: the two *distinct* relative paths
`"a..b"` and `"ab"` resolve to the same stored entry (stripping `..`
turns the former into the latter), so writing both from an empty
sandbox leaves one file, and `list_files` returns 1 entry, not 2. -/
theorem c7_counterexample :
    (listFiles demoRoot
      (writeAll demoRoot emptyFS [("a..b", "x"), ("ab", "y")]).files).length = 1 ∧
    ("a..b" : String) ≠ "ab" :=
  ⟨rfl, by decide⟩

/-- C7 as amended: starting from the startup filesystem, after writing
N relative paths whose *resolved* paths are pairwise
prefix-incomparable (no resolution equal to, above, or below another —
aliasing like `"a..b"`/`"ab"` collapses entries, and nesting like
`"a"`/`"a/b"` makes the later write fail on a file/directory
collision) and all strictly below the root, `list_files` returns
exactly N entries; the count depends only on the set of resolutions,
hence not on call order.  After `reset_sandbox` of any store,
`list_files` returns zero entries. -/
theorem c7_listing_count (root : PPath) (ps : List (String × String))
    (hpw : pairwiseIncompatible (ps.map (fun p => sandbox_path root p.1)) = true)
    (hin : ∀ p ∈ ps, (relTo root (sandbox_path root p.1)).isSome = true) :
    (listFiles root (writeAll root emptyFS ps).files).length = ps.length ∧
    (∀ st : Store, listFiles root (resetStore root st) = []) := by
  constructor
  · have h := writeAll_count root ps emptyFS hpw hin
      (by intro p hp q hq; simp [emptyFS] at hq)
      (by intro p hp q hq; simp [emptyFS] at hq)
    simpa [emptyFS, listFiles] using h
  · exact listFiles_reset root

/-- Witness for C7 (amended): two writes with incomparable resolutions
give a listing of length 2; reset of any store lists nothing. -/
theorem c7_listing_count_witness :
    (listFiles demoRoot
      (writeAll demoRoot emptyFS [("a/b.txt", "hello"), ("c.txt", "d")]).files).length
      = 2 ∧
    (∀ st : Store, listFiles demoRoot (resetStore demoRoot st) = []) :=
  c7_listing_count demoRoot [("a/b.txt", "hello"), ("c.txt", "d")]
    (by decide) (by decide)
